import Mathlib

/-!
Verification of the CodeAI-Pak client against its specification.

The development shallowly embeds the client-side glue code of the
repository: the dashboard's analysis dispatcher and result store
(`Dashboard` in `codeai-frontend/src/AuthPage.jsx`), the auth form
handler (`AuthPage.handleSubmit`), the legacy static dashboard's upload
and translate handlers (`CodeAI-main/static/script.js`), and the
result-rendering views.  Asynchronous effects (fetch, setTimeout,
FileReader) are modelled by explicit pending operations resolved by
events; network requests and alerts are recorded as outputs of each
event step.
-/

namespace CodeAI

/-- The four analysis kinds of the dashboard (`quality`, `bugs`, `docs`,
`security` keys of the `results` object). -/
inductive AnalysisKind where
  | quality
  | bugs
  | docs
  | security
deriving DecidableEq, Repr

/-- UI language, `en` or `ur` (the `language` state). -/
inductive Lang where
  | en
  | ur
deriving DecidableEq, Repr

/-- The string code sent as the `language` form field. -/
def langCode : Lang → String
  | .en => "en"
  | .ur => "ur"

/-- `translations[language].noCodeError`. -/
def noCodeError : Lang → String
  | .en => "Please upload a file or paste code first"
  | .ur => "براہ کرم پہلے فائل اپ لوڈ یا کوڈ پیسٹ کریں"

/-- `translations[language].analysisError`. -/
def analysisError : Lang → String
  | .en => "Analysis failed. Please try again."
  | .ur => "تجزیہ ناکام ہو گیا۔ دوبارہ کوشش کریں۔"

/-- An issue entry of a quality payload, as read by `QualityResults`
(`issue.severity`, `issue.message`, `issue.line`). -/
structure QIssue where
  severity : String
  message : String
  line : Nat
deriving DecidableEq, Repr

/-- A quality analysis payload (`data.results` of `/api/analyze/quality`),
with the fields the `QualityResults` view reads. -/
structure QualityData where
  overall_score : Nat
  issues : List QIssue
deriving DecidableEq, Repr

/-- A bug entry of a bugs payload, as read by `BugResults`
(`bug.type`, `bug.description`, `bug.line`). -/
structure BugItem where
  type : String
  description : String
  line : Nat
deriving DecidableEq, Repr

/-- A bugs analysis payload (`data.results` of `/api/analyze/bugs`). -/
structure BugsData where
  bugs_found : Nat
  bugs : List BugItem
deriving DecidableEq, Repr

/-- A documentation payload (`data.results` of `/api/analyze/documentation`). -/
structure DocsData where
  completeness_score : Nat
  documentation_english : String
  documentation_urdu : Option String
deriving DecidableEq, Repr

/-- A security issue entry, as stored by `runSecurityScan` and read by
`SecurityResults`. -/
structure SecIssue where
  severity : String
  type : String
  line : Nat
  description : String
deriving DecidableEq, Repr

/-- The security payload stored at the `security` key of `results`. -/
structure SecurityData where
  vulnerabilities : Nat
  securityScore : Nat
  issues : List SecIssue
deriving DecidableEq, Repr

/-- A result payload stored in the `results` object under one of the four
kind keys. -/
inductive Payload where
  | qualityP (d : QualityData)
  | bugsP (d : BugsData)
  | docsP (d : DocsData)
  | securityP (d : SecurityData)
deriving DecidableEq, Repr

/-- A file chosen through the dashboard's hidden file input
(`e.target.files[0]`): its name and its text content. -/
structure UploadedFile where
  name : String
  content : String
deriving DecidableEq, Repr

/-- A multipart request issued by one of the analysis handlers:
`fetch(endpoint, {method: POST, body: formData})` with
`formData = {file: blob named fileName, language, include_urdu?}`. -/
structure AnalysisRequest where
  endpoint : String
  fileName : String
  fileContent : String
  language : String
  include_urdu : Option String
deriving DecidableEq, Repr

/-- An asynchronous operation started by a handler and still unresolved:
an in-flight `fetch` of an analysis kind (the closure captures the
language used for the failure alert), or the `setTimeout` of the
simulated security scan with its delay in milliseconds. -/
inductive PendingOp where
  | fetchOp (kind : AnalysisKind) (req : AnalysisRequest) (lang : Lang)
  | timerOp (delayMs : Nat)
deriving DecidableEq, Repr

/-- The dashboard component state: the `useState` hooks of `Dashboard`
relevant to the analysis flow, plus the list of unresolved asynchronous
operations. The `results` and `expandedSections` objects are modelled as
functions from kinds (a missing key reads as `none` / `false`). -/
structure DashState where
  codeInput : String
  uploadedFile : Option UploadedFile
  language : Lang
  isAnalyzing : Bool
  activeAnalysis : Option AnalysisKind
  results : AnalysisKind → Option Payload
  expandedSections : AnalysisKind → Bool
  pending : List PendingOp

/-- The observable outcome of one event step: the successor state, the
`alert` messages shown, and the network requests issued. -/
structure StepOut where
  state : DashState
  alerts : List String
  requests : List AnalysisRequest

/-- The JS `String.prototype.trim()`: drops whitespace from both ends of
the string. -/
def jsTrim (s : String) : String :=
  ⟨((s.data.dropWhile Char.isWhitespace).reverse.dropWhile
      Char.isWhitespace).reverse⟩

/-- `getCodeToAnalyze = () => codeInput.trim() || null`: the trimmed code,
or `none` when trimming leaves the empty string. -/
def getCodeToAnalyze (codeInput : String) : Option String :=
  let c := jsTrim codeInput
  if c = "" then none else some c

/-- The blob filename of the multipart payload:
`uploadedFile?.name || 'code.py'`. -/
def blobFileName : Option UploadedFile → String
  | some f => if f.name = "" then "code.py" else f.name
  | none => "code.py"

/-- `{...prev, K: some p}`: object-spread update of the result store at
one kind key. -/
def setResult (r : AnalysisKind → Option Payload) (k : AnalysisKind)
    (p : Payload) : AnalysisKind → Option Payload :=
  fun k2 => if k2 = k then some p else r k2

/-- `{...prev, K: b}`: object-spread update of the expanded-sections map. -/
def setExpanded (e : AnalysisKind → Bool) (k : AnalysisKind) (b : Bool) :
    AnalysisKind → Bool :=
  fun k2 => if k2 = k then b else e k2

/-- The synchronous part of `analyzeQuality`: empty code alerts
`noCodeError` and returns; otherwise the busy flag and active kind are
set and a multipart POST to `/api/analyze/quality` goes in flight. -/
def analyzeQuality (st : DashState) : StepOut :=
  match getCodeToAnalyze st.codeInput with
  | none => ⟨st, [noCodeError st.language], []⟩
  | some code =>
    let req : AnalysisRequest :=
      { endpoint := "http://localhost:5000/api/analyze/quality"
        fileName := blobFileName st.uploadedFile
        fileContent := code
        language := langCode st.language
        include_urdu := none }
    ⟨{ st with isAnalyzing := true
               activeAnalysis := some .quality
               pending := .fetchOp .quality req st.language :: st.pending },
      [], [req]⟩

/-- The synchronous part of `analyzeBugs` (POST to `/api/analyze/bugs`). -/
def analyzeBugs (st : DashState) : StepOut :=
  match getCodeToAnalyze st.codeInput with
  | none => ⟨st, [noCodeError st.language], []⟩
  | some code =>
    let req : AnalysisRequest :=
      { endpoint := "http://localhost:5000/api/analyze/bugs"
        fileName := blobFileName st.uploadedFile
        fileContent := code
        language := langCode st.language
        include_urdu := none }
    ⟨{ st with isAnalyzing := true
               activeAnalysis := some .bugs
               pending := .fetchOp .bugs req st.language :: st.pending },
      [], [req]⟩

/-- The synchronous part of `generateDocs` (POST to
`/api/analyze/documentation`, with the extra `include_urdu` field). -/
def generateDocs (st : DashState) : StepOut :=
  match getCodeToAnalyze st.codeInput with
  | none => ⟨st, [noCodeError st.language], []⟩
  | some code =>
    let req : AnalysisRequest :=
      { endpoint := "http://localhost:5000/api/analyze/documentation"
        fileName := blobFileName st.uploadedFile
        fileContent := code
        language := langCode st.language
        include_urdu := some (if st.language = .ur then "true" else "false") }
    ⟨{ st with isAnalyzing := true
               activeAnalysis := some .docs
               pending := .fetchOp .docs req st.language :: st.pending },
      [], [req]⟩

/-- The hardcoded findings payload that `runSecurityScan` stores after
its fixed delay. -/
def securityScanData : SecurityData :=
  { vulnerabilities := 2
    securityScore := 75
    issues :=
      [ { severity := "high", type := "SQL Injection", line := 45
          description := "Unsanitized user input" },
        { severity := "medium", type := "XSS Risk", line := 78
          description := "Unescaped output" } ] }

/-- The synchronous part of `runSecurityScan`: no fetch is issued; a
2000 ms timer goes pending instead. -/
def runSecurityScan (st : DashState) : StepOut :=
  match getCodeToAnalyze st.codeInput with
  | none => ⟨st, [noCodeError st.language], []⟩
  | some _ =>
    ⟨{ st with isAnalyzing := true
               activeAnalysis := some .security
               pending := .timerOp 2000 :: st.pending },
      [], []⟩

/-- How the in-flight fetch of an analysis kind resolves: a 2xx response
whose JSON parsed and carried a `results` value, a non-2xx response (the
`throw new Error` on `!response.ok`), a 2xx response whose body failed to
parse as JSON, or a transport error. -/
inductive FetchOutcome where
  | ok (p : Payload)
  | httpError
  | badJson
  | netError
deriving DecidableEq, Repr

/-- Resolution of the pending fetch: on success the kind's result entry is
overwritten and its panel expanded; on any failure `analysisError` is
alerted; either way the `finally` block clears the busy flag and the
active kind. With no pending fetch the event is a no-op. -/
def resolveFetch (outcome : FetchOutcome) (st : DashState) : StepOut :=
  match st.pending with
  | .fetchOp k _ lang :: rest =>
    match outcome with
    | .ok p =>
      ⟨{ st with pending := rest
                 results := setResult st.results k p
                 expandedSections := setExpanded st.expandedSections k true
                 isAnalyzing := false
                 activeAnalysis := none },
        [], []⟩
    | _ =>
      ⟨{ st with pending := rest
                 isAnalyzing := false
                 activeAnalysis := none },
        [analysisError lang], []⟩
  | _ => ⟨st, [], []⟩

/-- Resolution of the security-scan timer: the hardcoded payload is stored
at the `security` key, the panel expands, and the busy flag clears. -/
def resolveTimer (st : DashState) : StepOut :=
  match st.pending with
  | .timerOp _ :: rest =>
    ⟨{ st with pending := rest
               results := setResult st.results .security (.securityP securityScanData)
               expandedSections := setExpanded st.expandedSections .security true
               isAnalyzing := false
               activeAnalysis := none },
      [], []⟩
  | _ => ⟨st, [], []⟩

/-- `handleFileUpload`: unconditionally records the chosen file and
replaces the code input with its text (the `FileReader.onload` callback),
with no size or content check. -/
def handleFileUpload (f : UploadedFile) (st : DashState) : DashState :=
  { st with uploadedFile := some f, codeInput := f.content }

/-- The events driving the dashboard: the analysis button clicks, the
resolutions of the asynchronous operations, and the remaining input
interactions. -/
inductive DashEvent where
  | clickAnalyze (k : AnalysisKind)
  | fetchResolves (outcome : FetchOutcome)
  | timerFires
  | editCode (s : String)
  | uploadFile (f : UploadedFile)
  | togglePanel (k : AnalysisKind)
  | setLang (l : Lang)

/-- One event step of the dashboard. An analysis button click is inert
while `isAnalyzing` holds, because all four buttons carry
`disabled={isAnalyzing}`. -/
def step (st : DashState) : DashEvent → StepOut
  | .clickAnalyze k =>
    if st.isAnalyzing then ⟨st, [], []⟩
    else
      match k with
      | .quality => analyzeQuality st
      | .bugs => analyzeBugs st
      | .docs => generateDocs st
      | .security => runSecurityScan st
  | .fetchResolves outcome => resolveFetch outcome st
  | .timerFires => resolveTimer st
  | .editCode s => ⟨{ st with codeInput := s }, [], []⟩
  | .uploadFile f => ⟨handleFileUpload f st, [], []⟩
  | .togglePanel k =>
    ⟨{ st with expandedSections :=
        setExpanded st.expandedSections k (!st.expandedSections k) }, [], []⟩
  | .setLang l => ⟨{ st with language := l }, [], []⟩

/-- The initial dashboard state (the `useState` initial values). -/
def initState : DashState :=
  { codeInput := ""
    uploadedFile := none
    language := .en
    isAnalyzing := false
    activeAnalysis := none
    results := fun _ => none
    expandedSections := fun _ => false
    pending := [] }

/-- States the dashboard can reach from its initial state by event steps. -/
inductive Reachable : DashState → Prop where
  | init : Reachable initState
  | next {st : DashState} (e : DashEvent) :
      Reachable st → Reachable (step st e).state

/-- The issue entries actually rendered by `QualityResults`: the issues
card appears only for a non-empty list and maps `issues.slice(0, 10)`. -/
def qualityIssuesShown (d : QualityData) : List QIssue :=
  if d.issues.length > 0 then d.issues.take 10 else []

/-- The bug entries actually rendered by `BugResults`
(`bugs.slice(0, 10)` under a non-emptiness guard). -/
def bugItemsShown (d : BugsData) : List BugItem :=
  if d.bugs.length > 0 then d.bugs.take 10 else []

/-- The issue entries actually rendered by `SecurityResults`
(`issues.map` with no slice, under a non-emptiness guard). -/
def securityIssuesShown (d : SecurityData) : List SecIssue :=
  if d.issues.length > 0 then d.issues else []

/-- The `AuthPage` form state (`formData`). -/
structure AuthFormData where
  name : String
  email : String
  password : String
deriving DecidableEq, Repr

/-- The JSON body POSTed by `AuthPage.handleSubmit`. -/
structure AuthRequest where
  endpoint : String
  username : String
  password : String
  role : Option String
deriving DecidableEq, Repr

/-- The parsed JSON body of the auth response together with `response.ok`.
Absent JSON fields are `none`; a missing or falsy `success` flag is
`false`. -/
structure AuthResponse where
  ok : Bool
  success : Bool
  role : Option String
  error : Option String
  errors : Option (List String)
deriving DecidableEq, Repr

/-- How the auth fetch resolves: a parsed response, or a throw (transport
error or JSON parse failure) landing in the `catch` block. -/
inductive AuthFetchResult where
  | response (data : AuthResponse)
  | failure
deriving DecidableEq, Repr

/-- The identity passed to `onAuthSuccess`. -/
structure Identity where
  username : String
  role : String
deriving DecidableEq, Repr

/-- The observable outcome of one `handleSubmit` run: the request issued,
the identity established (if any), the navigation target (if any), and
the final error/success messages. -/
structure AuthOut where
  requests : List AuthRequest
  identity : Option Identity
  navigateTo : Option String
  errorMsg : Option String
  successMsg : Option String
deriving DecidableEq, Repr

/-- `data.role || 'user'`. -/
def roleOrUser : Option String → String
  | some s => if s = "" then "user" else s
  | none => "user"

/-- `AuthPage.handleSubmit`: POSTs `{username: email, password[, role]}`
to `/login` or `/register`; on `response.ok && data.success` stores the
identity and schedules the `/dashboard` redirect; otherwise surfaces
`data.errors.join(', ')`, else `data.error`, else a generic message; a
thrown fetch/parse error surfaces the connection message. -/
def handleSubmit (isLogin : Bool) (fd : AuthFormData)
    (res : AuthFetchResult) : AuthOut :=
  let endpoint := if isLogin then "/login" else "/register"
  let req : AuthRequest :=
    { endpoint := "http://localhost:5000/api" ++ endpoint
      username := fd.email
      password := fd.password
      role := if isLogin then none else some "user" }
  match res with
  | .failure =>
    { requests := [req], identity := none, navigateTo := none
      errorMsg := some "Failed to connect to server. Please try again."
      successMsg := none }
  | .response data =>
    if data.ok && data.success then
      { requests := [req]
        identity := some { username := fd.email, role := roleOrUser data.role }
        navigateTo := some "/dashboard"
        errorMsg := none
        successMsg := some (if isLogin then "Login successful!"
                            else "Account created successfully!") }
    else
      { requests := [req], identity := none, navigateTo := none
        successMsg := none
        errorMsg := some
          (match data.errors with
           | some es => String.intercalate ", " es
           | none =>
             match data.error with
             | some e => e
             | none => "An error occurred. Please try again.") }

/-- A file as seen by the legacy static dashboard form
(`fileInput.files[0]`): name, byte size, content. -/
structure LegacyFile where
  name : String
  size : Nat
  content : String
deriving DecidableEq, Repr

/-- The multipart request of the legacy `/analyze` submission. -/
structure LegacyRequest where
  endpoint : String
  fileName : String
deriving DecidableEq, Repr

/-- The observable outcome of one legacy form submission: the error shown
inline (if any) and the requests issued. -/
structure LegacySubmitOut where
  errorShown : Option String
  requests : List LegacyRequest
deriving DecidableEq, Repr

/-- The client-side size cap of the legacy form: `10 * 1024 * 1024`. -/
def legacyMaxSize : Nat := 10 * 1024 * 1024

/-- The legacy `uploadForm` submit handler up to the fetch: rejects an
empty selection and any file above 10 MB client-side with an inline
error and no request; otherwise POSTs the file to `/analyze`. -/
def legacyUploadSubmit (files : List LegacyFile) : LegacySubmitOut :=
  match files with
  | [] => ⟨some "Please select a file first.", []⟩
  | f :: _ =>
    if f.size > legacyMaxSize then
      ⟨some "File size too large. Maximum 10MB allowed.", []⟩
    else
      ⟨none, [⟨"/analyze", f.name⟩]⟩

/-- A request of the legacy `translateToUrdu` helper: one POST to
`/translate_to_urdu` per call. -/
structure TranslateRequest where
  endpoint : String
  text : String
deriving DecidableEq, Repr

/-- The observable outcome of one legacy translate-button click. -/
structure TranslateOut where
  errorShown : Option String
  requests : List TranslateRequest
deriving DecidableEq, Repr

/-- The legacy translate-button click handler: with no report it shows an
inline error; otherwise it calls `translateToUrdu` once for the bug
report panel (when its text is non-empty and not the placeholder) and
once more for the corrected-code panel, each call being one fetch. -/
def translateClick (hasReport : Bool)
    (bugReportText correctedCodeText : String) : TranslateOut :=
  if !hasReport then
    ⟨some "No report available to translate", []⟩
  else
    let bugReqs :=
      if bugReportText ≠ "" && bugReportText ≠ "[no bug report]" then
        [TranslateRequest.mk "/translate_to_urdu" bugReportText]
      else []
    let codeReqs :=
      if correctedCodeText ≠ "" && correctedCodeText ≠ "[no corrected code]" then
        [TranslateRequest.mk "/translate_to_urdu" correctedCodeText]
      else []
    ⟨none, bugReqs ++ codeReqs⟩

/-- Empty trimmed code input makes `getCodeToAnalyze` return `none`. -/
theorem getCodeToAnalyze_eq_none {s : String} (h : jsTrim s = "") :
    getCodeToAnalyze s = none := by
  simp [getCodeToAnalyze, h]

/-- A concrete state with code pasted into the editor. -/
def stCode : DashState := (step initState (.editCode "print(1)")).state

/-- The concrete state after clicking the quality button at `stCode`. -/
def stBusyQuality : DashState := (step stCode (.clickAnalyze .quality)).state

/-- The concrete state after clicking the bugs button at `stCode`. -/
def stBusyBugs : DashState := (step stCode (.clickAnalyze .bugs)).state

/-- The concrete state after clicking the security button at `stCode`. -/
def stBusySecurity : DashState := (step stCode (.clickAnalyze .security)).state

/-- Claim C1: for every one of the four analysis kinds, invoking the
analysis with empty code input issues no network request, leaves the
state unchanged, and fails fast with the "no code" alert. -/
theorem empty_code_fails_fast (st : DashState) (h : jsTrim st.codeInput = "") :
    ((analyzeQuality st).requests = [] ∧
     (analyzeQuality st).alerts = [noCodeError st.language] ∧
     (analyzeQuality st).state = st) ∧
    ((analyzeBugs st).requests = [] ∧
     (analyzeBugs st).alerts = [noCodeError st.language] ∧
     (analyzeBugs st).state = st) ∧
    ((generateDocs st).requests = [] ∧
     (generateDocs st).alerts = [noCodeError st.language] ∧
     (generateDocs st).state = st) ∧
    ((runSecurityScan st).requests = [] ∧
     (runSecurityScan st).alerts = [noCodeError st.language] ∧
     (runSecurityScan st).state = st) := by
  have hc := getCodeToAnalyze_eq_none h
  simp [analyzeQuality, analyzeBugs, generateDocs, runSecurityScan, hc]

/-- Witness for C1 at the initial state (empty editor). -/
theorem empty_code_fails_fast_witness :
    (analyzeQuality initState).requests = [] ∧
    (analyzeBugs initState).requests = [] ∧
    (generateDocs initState).requests = [] ∧
    (runSecurityScan initState).requests = [] ∧
    (runSecurityScan initState).alerts =
      ["Please upload a file or paste code first"] := by
  have h := empty_code_fails_fast initState rfl
  exact ⟨h.1.1, h.2.1.1, h.2.2.1.1, h.2.2.2.1, h.2.2.2.2.1⟩

/-- Claim C2: the security scan is simulated locally: with code present it
issues no network request, schedules a 2000 ms timer, and the timer
resolution issues no request either and stores the hardcoded findings
payload (score 75, the fixed two-issue list) as the security result. -/
theorem security_scan_simulated (st : DashState) (code : String)
    (h : getCodeToAnalyze st.codeInput = some code) :
    (runSecurityScan st).requests = [] ∧
    (runSecurityScan st).state.pending = .timerOp 2000 :: st.pending ∧
    (resolveTimer (runSecurityScan st).state).requests = [] ∧
    (resolveTimer (runSecurityScan st).state).state.results .security =
      some (.securityP
        { vulnerabilities := 2
          securityScore := 75
          issues :=
            [ { severity := "high", type := "SQL Injection", line := 45
                description := "Unsanitized user input" },
              { severity := "medium", type := "XSS Risk", line := 78
                description := "Unescaped output" } ] }) := by
  simp [runSecurityScan, h, resolveTimer, setResult, securityScanData]

/-- Witness for C2 at a state with code pasted. -/
theorem security_scan_simulated_witness :
    (runSecurityScan stCode).requests = [] ∧
    (resolveTimer (runSecurityScan stCode).state).state.results .security =
      some (.securityP securityScanData) := by
  have h := security_scan_simulated stCode "print(1)" rfl
  exact ⟨h.1, h.2.2.2⟩

/-- Claim C3: for every analysis kind, when the in-flight run fails
(non-2xx response, malformed JSON, or a transport error), the result
store is left untouched, the analysis-error alert is surfaced, the busy
flag and active kind are cleared, and no further request is issued. -/
theorem failed_run_leaves_store (st : DashState) (k : AnalysisKind)
    (req : AnalysisRequest) (lang : Lang) (rest : List PendingOp)
    (outcome : FetchOutcome)
    (hp : st.pending = .fetchOp k req lang :: rest)
    (hf : outcome = .httpError ∨ outcome = .badJson ∨ outcome = .netError) :
    (resolveFetch outcome st).state.results = st.results ∧
    (resolveFetch outcome st).alerts = [analysisError lang] ∧
    (resolveFetch outcome st).state.isAnalyzing = false ∧
    (resolveFetch outcome st).state.activeAnalysis = none ∧
    (resolveFetch outcome st).requests = [] := by
  rcases hf with h | h | h <;> subst h <;> simp [resolveFetch, hp]

/-- Witness for C3: a failing quality run at a concrete busy state. -/
theorem failed_run_leaves_store_witness :
    (resolveFetch .httpError stBusyQuality).state.results .quality = none ∧
    (resolveFetch .httpError stBusyQuality).alerts =
      ["Analysis failed. Please try again."] := by
  have h := failed_run_leaves_store stBusyQuality .quality
    { endpoint := "http://localhost:5000/api/analyze/quality"
      fileName := "code.py", fileContent := "print(1)"
      language := "en", include_urdu := none }
    .en [] .httpError rfl (Or.inl rfl)
  exact ⟨by simp only [h.1]; rfl, h.2.1⟩

/-- Claim C4: a successful result for kind K overwrites exactly K's entry
in the result store and leaves every other kind's entry unchanged; the
same frame holds for the simulated security completion. -/
theorem success_overwrites_only_kind (st st2 : DashState) (k : AnalysisKind)
    (req : AnalysisRequest) (lang : Lang) (rest rest2 : List PendingOp)
    (p : Payload) (d : Nat)
    (hp : st.pending = .fetchOp k req lang :: rest)
    (hp2 : st2.pending = .timerOp d :: rest2) :
    (resolveFetch (.ok p) st).state.results k = some p ∧
    (∀ k2, k2 ≠ k →
      (resolveFetch (.ok p) st).state.results k2 = st.results k2) ∧
    (resolveTimer st2).state.results .security =
      some (.securityP securityScanData) ∧
    (∀ k2, k2 ≠ .security →
      (resolveTimer st2).state.results k2 = st2.results k2) := by
  refine ⟨?_, ?_, ?_, ?_⟩
  · simp [resolveFetch, hp, setResult]
  · intro k2 hk2; simp [resolveFetch, hp, setResult, hk2]
  · simp [resolveTimer, hp2, setResult]
  · intro k2 hk2; simp [resolveTimer, hp2, setResult, hk2]

/-- Witness for C4: a successful bugs result at a concrete busy state
overwrites `bugs` and leaves `quality` unchanged; the security timer at
its own busy state leaves `docs` unchanged. -/
theorem success_overwrites_only_kind_witness :
    (resolveFetch (.ok (.bugsP { bugs_found := 1, bugs := [] }))
      stBusyBugs).state.results .bugs =
      some (.bugsP { bugs_found := 1, bugs := [] }) ∧
    (resolveFetch (.ok (.bugsP { bugs_found := 1, bugs := [] }))
      stBusyBugs).state.results .quality = stBusyBugs.results .quality ∧
    (resolveTimer stBusySecurity).state.results .docs =
      stBusySecurity.results .docs := by
  have h := success_overwrites_only_kind stBusyBugs stBusySecurity .bugs
    { endpoint := "http://localhost:5000/api/analyze/bugs"
      fileName := "code.py", fileContent := "print(1)"
      language := "en", include_urdu := none }
    .en [] [] (.bugsP { bugs_found := 1, bugs := [] }) 2000
    rfl rfl
  exact ⟨h.1, h.2.1 .quality (by simp), h.2.2.2 .docs (by simp)⟩

/-- The dispatcher invariant: at most one asynchronous analysis operation
is in flight, and none at all while the busy flag is clear. -/
def SingleFlight (st : DashState) : Prop :=
  st.pending.length ≤ 1 ∧ (st.isAnalyzing = false → st.pending = [])

/-- The initial state satisfies the dispatcher invariant. -/
theorem singleFlight_init : SingleFlight initState := by
  constructor
  · simp [initState]
  · intro; rfl

/-- With the busy flag clear, an analysis click either does nothing
observable to the flight bookkeeping (empty code) or raises the busy
flag and puts exactly one new operation in flight. -/
theorem dispatch_state_shape (st : DashState) (hb : st.isAnalyzing = false)
    (k : AnalysisKind) :
    (step st (.clickAnalyze k)).state = st ∨
    ((step st (.clickAnalyze k)).state.isAnalyzing = true ∧
     (step st (.clickAnalyze k)).state.pending.length =
       st.pending.length + 1) := by
  cases k <;> cases hc : getCodeToAnalyze st.codeInput
  case quality.none => left; simp [step, hb, analyzeQuality, hc]
  case quality.some code =>
    right; exact ⟨by simp [step, hb, analyzeQuality, hc],
                  by simp [step, hb, analyzeQuality, hc]⟩
  case bugs.none => left; simp [step, hb, analyzeBugs, hc]
  case bugs.some code =>
    right; exact ⟨by simp [step, hb, analyzeBugs, hc],
                  by simp [step, hb, analyzeBugs, hc]⟩
  case docs.none => left; simp [step, hb, generateDocs, hc]
  case docs.some code =>
    right; exact ⟨by simp [step, hb, generateDocs, hc],
                  by simp [step, hb, generateDocs, hc]⟩
  case security.none => left; simp [step, hb, runSecurityScan, hc]
  case security.some code =>
    right; exact ⟨by simp [step, hb, runSecurityScan, hc],
                  by simp [step, hb, runSecurityScan, hc]⟩

/-- Every event step preserves the dispatcher invariant. -/
theorem singleFlight_step (st : DashState) (e : DashEvent)
    (h : SingleFlight st) : SingleFlight (step st e).state := by
  obtain ⟨h1, h2⟩ := h
  cases e with
  | clickAnalyze k =>
    by_cases hb : st.isAnalyzing
    · have heq : (step st (.clickAnalyze k)).state = st := by simp [step, hb]
      rw [heq]; exact ⟨h1, h2⟩
    · have hb2 : st.isAnalyzing = false := by simpa using hb
      rcases dispatch_state_shape st hb2 k with heq | ⟨ha, hlen⟩
      · rw [heq]; exact ⟨h1, h2⟩
      · constructor
        · rw [hlen, h2 hb2]; simp
        · intro hfalse; rw [ha] at hfalse; cases hfalse
  | fetchResolves outcome =>
    cases hp : st.pending with
    | nil =>
      have : (step st (.fetchResolves outcome)).state = st := by
        simp [step, resolveFetch, hp]
      rw [this]; exact ⟨h1, h2⟩
    | cons op rest =>
      have hrest : rest = [] := by
        rw [hp] at h1; simpa using h1
      subst hrest
      cases op with
      | fetchOp k req lang =>
        cases outcome <;>
          simp [step, resolveFetch, hp, SingleFlight]
      | timerOp d =>
        have : (step st (.fetchResolves outcome)).state = st := by
          cases outcome <;> simp [step, resolveFetch, hp]
        rw [this]; exact ⟨h1, h2⟩
  | timerFires =>
    cases hp : st.pending with
    | nil =>
      have : (step st .timerFires).state = st := by
        simp [step, resolveTimer, hp]
      rw [this]; exact ⟨h1, h2⟩
    | cons op rest =>
      have hrest : rest = [] := by
        rw [hp] at h1; simpa using h1
      subst hrest
      cases op with
      | fetchOp k req lang =>
        have : (step st .timerFires).state = st := by
          simp [step, resolveTimer, hp]
        rw [this]; exact ⟨h1, h2⟩
      | timerOp d =>
        simp [step, resolveTimer, hp, SingleFlight]
  | editCode s => exact ⟨h1, h2⟩
  | uploadFile f => exact ⟨h1, h2⟩
  | togglePanel k => exact ⟨h1, h2⟩
  | setLang l => exact ⟨h1, h2⟩

/-- Every reachable dashboard state satisfies the dispatcher invariant. -/
theorem singleFlight_reachable (st : DashState) (h : Reachable st) :
    SingleFlight st := by
  induction h with
  | init => exact singleFlight_init
  | next e _ ih => exact singleFlight_step _ e ih

/-- Claim C5: in every reachable state at most one analysis operation is
in flight (none at all while the busy flag is clear), and clicking any
analysis button while the busy flag is set is blocked at the UI layer:
the click changes nothing, issues no request, and shows no alert. -/
theorem analysis_serialized (st : DashState) (h : Reachable st) :
    st.pending.length ≤ 1 ∧
    (st.isAnalyzing = false → st.pending = []) ∧
    (st.isAnalyzing = true → ∀ k, step st (.clickAnalyze k) = ⟨st, [], []⟩) := by
  obtain ⟨h1, h2⟩ := singleFlight_reachable st h
  exact ⟨h1, h2, fun hb k => by simp [step, hb]⟩

/-- Witness for C5: at the concrete busy state reached by pasting code and
clicking quality, a bugs click is inert. -/
theorem analysis_serialized_witness :
    stBusyQuality.pending.length ≤ 1 ∧
    step stBusyQuality (.clickAnalyze .bugs) = ⟨stBusyQuality, [], []⟩ := by
  have hr : Reachable stBusyQuality :=
    Reachable.next (.clickAnalyze .quality)
      (Reachable.next (.editCode "print(1)") Reachable.init)
  have h := analysis_serialized stBusyQuality hr
  exact ⟨h.1, h.2.2 rfl .bugs⟩

/-- Claim C10: the quality and bug views render exactly the first 10
entries of the backend-provided list in backend order (and nothing for an
empty list), while the security view renders its full issue list. -/
theorem views_render_truncated :
    (∀ d : QualityData, qualityIssuesShown d = d.issues.take 10) ∧
    (∀ d : BugsData, bugItemsShown d = d.bugs.take 10) ∧
    (∀ d : SecurityData, securityIssuesShown d = d.issues) := by
  refine ⟨?_, ?_, ?_⟩
  · intro d
    cases hl : d.issues with
    | nil => simp [qualityIssuesShown, hl]
    | cons a l => simp [qualityIssuesShown, hl]
  · intro d
    cases hl : d.bugs with
    | nil => simp [bugItemsShown, hl]
    | cons a l => simp [bugItemsShown, hl]
  · intro d
    cases hl : d.issues with
    | nil => simp [securityIssuesShown, hl]
    | cons a l => simp [securityIssuesShown, hl]

/-- Claim C6: submitting login with username `a@b.com` and password `x`
when the backend answers HTTP success with `{success: true, role: "user"}`
establishes identity `{username: "a@b.com", role: "user"}` and redirects
to the dashboard; on a failed response, the backend's validation-error
list (joined with a comma) or, in its absence, its single error message
is surfaced. -/
theorem login_submit_behaviour :
    ((handleSubmit true ⟨"", "a@b.com", "x"⟩
        (.response ⟨true, true, some "user", none, none⟩)).identity =
      some ⟨"a@b.com", "user"⟩ ∧
     (handleSubmit true ⟨"", "a@b.com", "x"⟩
        (.response ⟨true, true, some "user", none, none⟩)).navigateTo =
      some "/dashboard" ∧
     (handleSubmit true ⟨"", "a@b.com", "x"⟩
        (.response ⟨true, true, some "user", none, none⟩)).requests =
      [⟨"http://localhost:5000/api/login", "a@b.com", "x", none⟩]) ∧
    (∀ (isLogin : Bool) (fd : AuthFormData) (data : AuthResponse),
      (data.ok && data.success) = false → ∀ es, data.errors = some es →
        (handleSubmit isLogin fd (.response data)).errorMsg =
          some (String.intercalate ", " es) ∧
        (handleSubmit isLogin fd (.response data)).identity = none) ∧
    (∀ (isLogin : Bool) (fd : AuthFormData) (data : AuthResponse),
      (data.ok && data.success) = false → data.errors = none →
        ∀ e, data.error = some e →
          (handleSubmit isLogin fd (.response data)).errorMsg = some e ∧
          (handleSubmit isLogin fd (.response data)).identity = none) := by
  refine ⟨⟨rfl, rfl, rfl⟩, ?_, ?_⟩
  · intro isLogin fd data hf es hes
    constructor <;> simp [handleSubmit, hf, hes]
  · intro isLogin fd data hf hes e he
    constructor <;> simp [handleSubmit, hf, hes, he]

/-- Witness for C6: a rejected login surfaces the single backend error. -/
theorem login_submit_behaviour_witness :
    (handleSubmit true ⟨"", "a@b.com", "x"⟩
      (.response ⟨true, false, none, some "Invalid credentials", none⟩)).errorMsg =
      some "Invalid credentials" := by
  have h := login_submit_behaviour
  exact (h.2.2 true ⟨"", "a@b.com", "x"⟩
    ⟨true, false, none, some "Invalid credentials", none⟩
    rfl rfl "Invalid credentials" rfl).1

/-- Counterexample to C7 as stated: the legacy static dashboard performs
client-side size validation; a file one byte over 10 MB is rejected with
an inline error and no network request, so rejection of oversized
payloads is not left entirely to the backend. -/
theorem legacy_size_check_exists :
    (legacyUploadSubmit [⟨"big.py", 10 * 1024 * 1024 + 1, ""⟩]).requests = [] ∧
    (legacyUploadSubmit [⟨"big.py", 10 * 1024 * 1024 + 1, ""⟩]).errorShown =
      some "File size too large. Maximum 10MB allowed." := by
  constructor <;> rfl

/-- Claim C7 (amended): the React upload/input handler performs no
client-side validation at all (every chosen file and every pasted text is
accepted as-is), while the legacy static dashboard's submit handler
rejects files larger than 10 MB client-side with an inline error and no
request; files at or below the cap are posted to the backend unchecked. -/
theorem upload_validation_amended :
    (∀ (f : UploadedFile) (st : DashState),
       (handleFileUpload f st).uploadedFile = some f ∧
       (handleFileUpload f st).codeInput = f.content) ∧
    (∀ (s : String) (st : DashState),
       (step st (.editCode s)).state.codeInput = s) ∧
    (∀ f : LegacyFile, f.size ≤ legacyMaxSize →
       (legacyUploadSubmit [f]).errorShown = none ∧
       (legacyUploadSubmit [f]).requests = [⟨"/analyze", f.name⟩]) ∧
    (∀ f : LegacyFile, f.size > legacyMaxSize →
       (legacyUploadSubmit [f]).errorShown =
         some "File size too large. Maximum 10MB allowed." ∧
       (legacyUploadSubmit [f]).requests = []) := by
  refine ⟨fun f st => ⟨rfl, rfl⟩, fun s st => rfl, ?_, ?_⟩
  · intro f hf
    have hn : ¬ f.size > legacyMaxSize := by omega
    constructor <;> simp [legacyUploadSubmit, hn]
  · intro f hf
    constructor <;> simp [legacyUploadSubmit, hf]

/-- Witness for C7 (amended): a small file passes straight through, an
oversized one is stopped client-side. -/
theorem upload_validation_amended_witness :
    (legacyUploadSubmit [⟨"ok.py", 5, "x"⟩]).requests =
      [⟨"/analyze", "ok.py"⟩] ∧
    (legacyUploadSubmit [⟨"huge.py", 10485761, ""⟩]).requests = [] := by
  have h := upload_validation_amended
  exact ⟨(h.2.2.1 ⟨"ok.py", 5, "x"⟩ (by norm_num [legacyMaxSize])).2,
         (h.2.2.2 ⟨"huge.py", 10485761, ""⟩ (by norm_num [legacyMaxSize])).2⟩

/-- Counterexample to C8 as stated: one click of the legacy translate
button with both report panels populated issues two network requests. -/
theorem translate_click_two_requests :
    (translateClick true "Bug at line 3" "x = 1").requests.length = 2 := by
  rfl

/-- Claim C8 (amended): no retry or batching exists; the auth submit
issues exactly one request, each analysis click and each legacy analyze
submission at most one, and the legacy translate click at most two (one
per populated report panel). -/
theorem one_request_per_action_amended :
    (∀ (st : DashState) (k : AnalysisKind),
       (step st (.clickAnalyze k)).requests.length ≤ 1) ∧
    (∀ (isLogin : Bool) (fd : AuthFormData) (res : AuthFetchResult),
       (handleSubmit isLogin fd res).requests.length = 1) ∧
    (∀ files, (legacyUploadSubmit files).requests.length ≤ 1) ∧
    (∀ (hasReport : Bool) (b c : String),
       (translateClick hasReport b c).requests.length ≤ 2) := by
  refine ⟨?_, ?_, ?_, ?_⟩
  · intro st k
    by_cases hb : st.isAnalyzing
    · simp [step, hb]
    · have hb2 : st.isAnalyzing = false := by simpa using hb
      cases k <;> cases hc : getCodeToAnalyze st.codeInput <;>
        simp [step, hb2, analyzeQuality, analyzeBugs, generateDocs,
              runSecurityScan, hc]
  · intro isLogin fd res
    cases res with
    | failure => simp [handleSubmit]
    | response data =>
      by_cases h : (data.ok && data.success) = true <;>
        simp [handleSubmit, h]
  · intro files
    cases files with
    | nil => simp [legacyUploadSubmit]
    | cons f rest =>
      by_cases h : f.size > legacyMaxSize <;> simp [legacyUploadSubmit, h]
  · intro hasReport b c
    cases hasReport with
    | false => simp [translateClick]
    | true =>
      simp only [translateClick]
      split_ifs <;> simp

/-- Claim C9: every dispatch of the quality, bugs, or documentation
analysis sends exactly one multipart request whose code blob is named
`code.py` when no file has been uploaded, and carries the uploaded
file's original (non-empty) name otherwise. -/
theorem multipart_blob_filename (st : DashState) (code : String)
    (k : AnalysisKind)
    (hb : st.isAnalyzing = false)
    (hc : getCodeToAnalyze st.codeInput = some code)
    (hk : k = .quality ∨ k = .bugs ∨ k = .docs) :
    ((step st (.clickAnalyze k)).requests.map AnalysisRequest.fileName) =
      [blobFileName st.uploadedFile] ∧
    (st.uploadedFile = none → blobFileName st.uploadedFile = "code.py") ∧
    (∀ f, st.uploadedFile = some f → f.name ≠ "" →
      blobFileName st.uploadedFile = f.name) := by
  refine ⟨?_, ?_, ?_⟩
  · rcases hk with h | h | h <;> subst h <;>
      simp [step, hb, analyzeQuality, analyzeBugs, generateDocs, hc]
  · intro h; simp [blobFileName, h]
  · intro f h hn; simp [blobFileName, h, hn]

/-- The concrete state after additionally uploading a named file. -/
def stCodeFile : DashState :=
  (step stCode (.uploadFile ⟨"main.py", "print(2)"⟩)).state

/-- Witness for C9: with an uploaded file the blob carries its name; with
pasted code only, it is named `code.py`. -/
theorem multipart_blob_filename_witness :
    ((step stCodeFile (.clickAnalyze .quality)).requests.map
      AnalysisRequest.fileName) = ["main.py"] ∧
    ((step stCode (.clickAnalyze .bugs)).requests.map
      AnalysisRequest.fileName) = ["code.py"] := by
  have h1 := multipart_blob_filename stCodeFile "print(2)" .quality
    rfl rfl (Or.inl rfl)
  have h2 := multipart_blob_filename stCode "print(1)" .bugs
    rfl rfl (Or.inr (Or.inl rfl))
  constructor
  · rw [h1.1, h1.2.2 ⟨"main.py", "print(2)"⟩ rfl (by decide)]
  · rw [h2.1, h2.2.1 rfl]

end CodeAI
